import Mathlib

/-!
Verification of the NeMo MS MARCO dialogue data pipeline.

This file is a shallow embedding of two Python source files:

* `nemo/collections/nlp/data/dialogue/data_processor/ms_marco_data_processor.py`
  (`DialogueMSMarcoDataProcessor.get_dialog_examples` and helpers), and
* `nemo/collections/nlp/data/dialogue/dataset/dialogue_s2s_generation_dataset.py`
  (`DialogueS2SGenerationDataset.__init__`, `remove_invalid_samples`,
  `format_prompt`, `__len__`, `__getitem__`).

Modelling conventions:

* Python strings are Lean `String`s; the Python operations `str.split(sep)`,
  `str.strip()` and `sep.join(xs)` are re-implemented below by structural
  recursion on the character list (`py_split`, `py_strip`, `py_join`) so that
  they compute inside the kernel.
* A raw MS MARCO JSON file is a record of parallel mappings keyed by the
  stringified integer index `str(i)`; since the code only ever looks up
  `str(i)` for `i` in `range(len(raw['answers']))`, each mapping is modelled
  as a total function from the integer index, together with the explicit
  entry count `answersLen` of the `answers` mapping.
* A Python value that is either a plain string or a list of strings
  (`answers[str(i)]`, `wellFormedAnswers[str(i)]`) is the sum type
  `StrOrList`.
* Python exceptions (IndexError on `[0]` of an empty list, errors raised by
  `ast.literal_eval`) are modelled with `Except String`.
* `ast.literal_eval` is an external library function; it is taken as an
  abstract parameter `litEval : String → Except String (List String)`
  (the parse of the string, or the raised parse error).
* A Python dict used as a label mapping is a function
  `String → Option String`; `none` models the Python value `None` stored
  under a key (the processor stores every key of interest, so the
  `KeyError` case of a genuinely absent key does not arise for the fields
  the dataset reads, and absent keys are also mapped to `none`).
-/

/-- Python `str.split(sep)` for a one-character separator, on the character
list: splits at every occurrence of `sep`, keeping empty pieces. -/
def py_split_aux (sep : Char) : List Char → List (List Char)
  | [] => [[]]
  | c :: rest =>
    match py_split_aux sep rest with
    | [] => [[c]]
    | p :: ps => if c = sep then [] :: p :: ps else (c :: p) :: ps

/-- Python `s.split(sep)` for a one-character separator. -/
def py_split (sep : Char) (s : String) : List String :=
  (py_split_aux sep s.data).map String.mk

/-- Drop leading whitespace from a character list. -/
def py_lstrip_chars : List Char → List Char
  | [] => []
  | c :: rest => if c.isWhitespace then py_lstrip_chars rest else c :: rest

/-- Python `s.strip()`: remove leading and trailing whitespace. -/
def py_strip (s : String) : String :=
  String.mk (py_lstrip_chars (py_lstrip_chars s.data.reverse).reverse)

/-- Python `sep.join(xs)`. -/
def py_join (sep : String) : List String → String
  | [] => ""
  | [s] => s
  | s :: rest => s ++ sep ++ py_join sep rest

/-- A candidate passage of an MS MARCO record: an element of
`raw_examples['passages'][str(i)]`, with fields `passage_text` and
`is_selected` (an integer-like flag; the source coerces it with `int(...)`,
modelled here by carrying the integer directly). -/
structure Passage where
  passage_text : String
  is_selected : Int

/-- A raw JSON value that is either a plain string or a list of strings,
as found in `answers[str(i)]` and `wellFormedAnswers[str(i)]`. -/
inductive StrOrList where
  | scalar (s : String)
  | list (l : List String)

/-- A raw MS MARCO corpus file (the parsed JSON object): parallel mappings
keyed by stringified index, modelled as functions of the integer index,
plus the entry count of the `answers` mapping (`len(raw_examples['answers'])`
in the source). -/
structure RawCorpus where
  answersLen : Nat
  query : Nat → String
  answers : Nat → StrOrList
  wellFormedAnswers : Nat → StrOrList
  query_type : Nat → String
  passages : Nat → List Passage

/-- The normalized example produced by the data processor
(`DialogueInputExample`): the `labels` dict is a lookup function where
`none` models both the stored Python `None` and an absent key. -/
structure DialogueInputExample where
  utterance : String
  example_id : Nat
  labels : String → Option String
  possible_service : List String
  possible_passage : List String

/-- `answer = answer[0] if isinstance(answer, list) else answer`:
a list contributes its first element (IndexError on an empty list),
a plain value is taken as is. -/
def first_answer : StrOrList → Except String String
  | .scalar s => .ok s
  | .list [] => .error "IndexError: list index out of range"
  | .list (a :: _) => .ok a

/-- `well_formed_answer if isinstance(well_formed_answer, list) else
literal_eval(well_formed_answer)`: a list is used as is, a plain value is
parsed by `ast.literal_eval` (abstract parameter `litEval`); a parse
failure propagates. -/
def well_formed_list (litEval : String → Except String (List String)) :
    StrOrList → Except String (List String)
  | .list l => .ok l
  | .scalar s => litEval s

/-- The body of the per-index loop of
`DialogueMSMarcoDataProcessor.get_dialog_examples`: builds one
`DialogueInputExample` from record `i` of the raw corpus. The `labels`
dict has keys `service`, `response`, `fluent_response`, `passage`;
`possible_labels` has `service` (the fixed comma-separated category
string, split) and `passage` (all candidate passage texts). -/
def build_example (litEval : String → Except String (List String))
    (raw_examples : RawCorpus) (i : Nat) : Except String DialogueInputExample :=
  match first_answer (raw_examples.answers i),
        well_formed_list litEval (raw_examples.wellFormedAnswers i) with
  | .error err, _ => .error err
  | .ok _, .error err => .error err
  | .ok answer, .ok wfa =>
    .ok
      { utterance := raw_examples.query i
        example_id := i
        labels := fun field =>
          if field = "service" then some (raw_examples.query_type i)
          else if field = "response" then some answer
          else if field = "fluent_response" then wfa.head?
          else if field = "passage" then
            (((raw_examples.passages i).filter
                (fun p => p.is_selected != 0)).map
              (fun p => p.passage_text)).head?
          else none
        possible_service := py_split ',' "LOCATION,NUMERIC,PERSON,DESCRIPTION,ENTITY"
        possible_passage := (raw_examples.passages i).map (fun p => p.passage_text) }

/-- The `dataset_split_print = {"train": "train", "dev": "train",
"test": "dev"}` dict lookup; a key outside the dict raises `KeyError`. -/
def dataset_split_print : String → Except String String := fun s =>
  if s = "train" then .ok "train"
  else if s = "dev" then .ok "train"
  else if s = "test" then .ok "dev"
  else .error "KeyError"

/-- The `if/elif` chain of `get_dialog_examples` selecting the kept record
indices: train keeps `i % 10 != 0`, dev keeps `i % 10 == 0`, test keeps the
full range (the final else is unreachable, the split name having already
been checked by the `dataset_split_print` lookup). -/
def split_idxs (dataset_split : String) (n : Nat) : List Nat :=
  if dataset_split = "train" then (List.range n).filter (fun i => i % 10 != 0)
  else if dataset_split = "dev" then (List.range n).filter (fun i => i % 10 == 0)
  else if dataset_split = "test" then List.range n
  else []

/-- The `for i in idxs` loop of `get_dialog_examples`: build each kept
record's example in order; a raised exception aborts the whole loop. -/
def build_all (litEval : String → Except String (List String))
    (raw_examples : RawCorpus) : List Nat → Except String (List DialogueInputExample)
  | [] => .ok []
  | i :: is =>
    match build_example litEval raw_examples i with
    | .error err => .error err
    | .ok e =>
      match build_all litEval raw_examples is with
      | .error err => .error err
      | .ok es => .ok (e :: es)

/-- `DialogueMSMarcoDataProcessor.get_dialog_examples(dataset_split)`:
remap the split name to a source file via `dataset_split_print`, load that
file (`files` maps the remapped name to its parsed corpus), select the kept
indices, and build one example per kept index. -/
def get_dialog_examples (litEval : String → Except String (List String))
    (files : String → RawCorpus) (dataset_split : String) :
    Except String (List DialogueInputExample) :=
  match dataset_split_print dataset_split with
  | .error err => .error err
  | .ok srcName =>
    let raw_examples := files srcName
    build_all litEval raw_examples (split_idxs dataset_split raw_examples.answersLen)

/-- The in-place mutation `features[i].data["labels"]["utterance"] =
features[i].data["utterance"]` performed by `remove_invalid_samples` (and
again, idempotently, by `format_prompt`): the labels mapping gains the key
`utterance` bound to the example's utterance. -/
def inject_utterance (e : DialogueInputExample) : DialogueInputExample :=
  { e with labels := fun field =>
      if field = "utterance" then some e.utterance else e.labels field }

/-- Python truthiness test `not v` for a label value: `None` and the empty
string are falsy. -/
def py_falsy : Option String → Bool
  | none => true
  | some s => s == ""

/-- The test `not v.strip()` for a label value; the `none` branch is
unreachable in the source (short-circuited by `not v`), and the `||` below
short-circuits it here the same way. -/
def py_strip_falsy : Option String → Bool
  | none => true
  | some s => py_strip s == ""

/-- The per-example validity check of
`DialogueS2SGenerationDataset.remove_invalid_samples`: `all_fields` is the
concatenation of the `'+'`-splits of `input_field` and `output_field`, and
the `all_fields_non_empty` flag (initialized `True`, cleared by any field
with `not labels[field] or not labels[field].strip()`) is equivalently the
conjunction over `all_fields`. -/
def keep_sample (input_label_type output_label_type : String)
    (e : DialogueInputExample) : Bool :=
  let all_fields := py_split '+' input_label_type ++ py_split '+' output_label_type
  all_fields.all fun field =>
    !(py_falsy (e.labels field) || py_strip_falsy (e.labels field))

/-- `DialogueS2SGenerationDataset.remove_invalid_samples(features)`: inject
`labels.utterance` into every example (in-place in the source), collect the
indices whose examples pass the validity check, and return those (mutated)
examples in order. -/
def remove_invalid_samples (input_label_type output_label_type : String)
    (features : List DialogueInputExample) : List DialogueInputExample :=
  (features.map inject_utterance).filter
    (keep_sample input_label_type output_label_type)

/-- The `__init__` tail of `DialogueS2SGenerationDataset`: filter the
processor's examples, then in debug mode keep only `features[:16]`. -/
def dataset_features (input_label_type output_label_type : String)
    (debug_mode : Bool) (dialog_examples : List DialogueInputExample) :
    List DialogueInputExample :=
  let features := remove_invalid_samples input_label_type output_label_type dialog_examples
  if debug_mode then features.take 16 else features

/-- `DialogueS2SGenerationDataset.__len__`. -/
def dataset_len (input_label_type output_label_type : String)
    (debug_mode : Bool) (dialog_examples : List DialogueInputExample) : Nat :=
  (dataset_features input_label_type output_label_type debug_mode dialog_examples).length

/-- The `self.features[idx]` access at the start of
`DialogueS2SGenerationDataset.__getitem__`; `none` models the IndexError of
an out-of-range index. -/
def dataset_getitem_feature (input_label_type output_label_type : String)
    (debug_mode : Bool) (dialog_examples : List DialogueInputExample)
    (idx : Nat) : Option DialogueInputExample :=
  (dataset_features input_label_type output_label_type debug_mode dialog_examples)[idx]?

/-- The list comprehension of `format_prompt`:
`[part + ': ' + ex["labels"][part] for part in parts]`; `none` models the
error raised when a looked-up label is `None` or absent. -/
def prompt_parts (labels : String → Option String) :
    List String → Option (List String)
  | [] => some []
  | part :: rest =>
    match labels part, prompt_parts labels rest with
    | some v, some tail => some ((part ++ ": " ++ v) :: tail)
    | _, _ => none

/-- `DialogueS2SGenerationDataset.format_prompt(ex)`: inject
`labels.utterance`, split `input_label_type` on `'+'`, and join the
`"<field>: <value>"` fragments with single spaces. -/
def format_prompt (input_label_type : String) (ex : DialogueInputExample) :
    Option String :=
  let ex := inject_utterance ex
  let parts := py_split '+' input_label_type
  (prompt_parts ex.labels parts).map (py_join " ")

/-- The statement `labels[labels == self.tokenizer.tokenizer.pad_token_id]
= -100` of `__getitem__`: every position of the tokenized target holding
the padding id is overwritten with −100, all other positions unchanged. -/
def adjust_target_labels (pad_token_id : Int) (labels : List Int) : List Int :=
  labels.map fun t => if t = pad_token_id then -100 else t

/-- There are exactly `⌈n/10⌉ = (n+9)/10` multiples of 10 below `n`. -/
theorem range_filter_mod10_eq_length (n : Nat) :
    ((List.range n).filter (fun i => i % 10 == 0)).length = (n + 9) / 10 := by
  induction n with
  | zero => rfl
  | succ n ih =>
    rw [List.range_succ, List.filter_append, List.length_append, ih]
    by_cases h : n % 10 = 0
    · have hb : (n % 10 == 0) = true := by simp [h]
      simp [List.filter, hb]
      omega
    · have hb : (n % 10 == 0) = false := by simp [h]
      simp [List.filter, hb]
      omega

/-- The two modulo-10 filters of `List.range n` have lengths summing to `n`. -/
theorem range_filter_mod10_length_add (n : Nat) :
    ((List.range n).filter (fun i => i % 10 != 0)).length
      + ((List.range n).filter (fun i => i % 10 == 0)).length = n := by
  induction n with
  | zero => rfl
  | succ n ih =>
    rw [List.range_succ, List.filter_append, List.filter_append,
      List.length_append, List.length_append]
    by_cases h : n % 10 = 0
    · have hb : (n % 10 == 0) = true := by simp [h]
      have hb2 : (n % 10 != 0) = false := by simp [h]
      simp [List.filter, hb, hb2]
      omega
    · have hb : (n % 10 == 0) = false := by simp [h]
      have hb2 : (n % 10 != 0) = true := by simp [h]
      simp [List.filter, hb, hb2]
      omega

/-- C1: `get_dialog_examples "train"` and `get_dialog_examples "dev"` both
read the train-source corpus and keep exactly the indices `i < N` with
`i % 10 ≠ 0` (train) resp. `i % 10 = 0` (dev); the two index sets are
disjoint, their union is `[0, N)`, their sizes sum to `N`, and the dev set
has exactly `⌈N/10⌉` elements. -/
theorem marco_train_dev_index_partition (n : Nat) :
    (∀ litEval files, get_dialog_examples litEval files "train"
        = build_all litEval (files "train")
            (split_idxs "train" (files "train").answersLen)) ∧
    (∀ litEval files, get_dialog_examples litEval files "dev"
        = build_all litEval (files "train")
            (split_idxs "dev" (files "train").answersLen)) ∧
    (∀ i, i ∈ split_idxs "train" n ↔ i < n ∧ i % 10 ≠ 0) ∧
    (∀ i, i ∈ split_idxs "dev" n ↔ i < n ∧ i % 10 = 0) ∧
    (∀ i, ¬ (i ∈ split_idxs "train" n ∧ i ∈ split_idxs "dev" n)) ∧
    (∀ i, i < n ↔ (i ∈ split_idxs "train" n ∨ i ∈ split_idxs "dev" n)) ∧
    (split_idxs "train" n).length + (split_idxs "dev" n).length = n ∧
    (split_idxs "dev" n).length = (n + 9) / 10 := by
  have etr : split_idxs "train" n = (List.range n).filter (fun i => i % 10 != 0) := rfl
  have edv : split_idxs "dev" n = (List.range n).filter (fun i => i % 10 == 0) := rfl
  have htrain : ∀ i, i ∈ split_idxs "train" n ↔ i < n ∧ i % 10 ≠ 0 := by
    intro i
    rw [etr, List.mem_filter, List.mem_range, bne_iff_ne]
  have hdev : ∀ i, i ∈ split_idxs "dev" n ↔ i < n ∧ i % 10 = 0 := by
    intro i
    rw [edv, List.mem_filter, List.mem_range, beq_iff_eq]
  refine ⟨fun _ _ => rfl, fun _ _ => rfl, htrain, hdev, ?_, ?_, ?_, ?_⟩
  · intro i hi
    rw [htrain, hdev] at hi
    exact hi.1.2 hi.2.2
  · intro i
    rw [htrain, hdev]
    constructor
    · intro hi
      by_cases h10 : i % 10 = 0
      · exact Or.inr ⟨hi, h10⟩
      · exact Or.inl ⟨hi, h10⟩
    · rintro (h | h) <;> exact h.1
  · rw [etr, edv]
    exact range_filter_mod10_length_add n
  · rw [edv]
    exact range_filter_mod10_eq_length n

/-- C1 witness, at `N = 12`: index 5 is kept by train, index 10 by dev, the
sizes sum to 12, and the dev set has `⌈12/10⌉ = 2` elements. -/
theorem marco_train_dev_index_partition_witness :
    5 ∈ split_idxs "train" 12 ∧ 10 ∈ split_idxs "dev" 12 ∧
    (split_idxs "train" 12).length + (split_idxs "dev" 12).length = 12 ∧
    (split_idxs "dev" 12).length = 2 :=
  ⟨((marco_train_dev_index_partition 12).2.2.1 5).mpr (by decide),
   ((marco_train_dev_index_partition 12).2.2.2.1 10).mpr (by decide),
   (marco_train_dev_index_partition 12).2.2.2.2.2.2.1,
   (marco_train_dev_index_partition 12).2.2.2.2.2.2.2⟩

/-- A single field passes the validity check of `remove_invalid_samples`
exactly when its label value is a non-empty, non-whitespace-only string. -/
theorem keep_field_iff (v : Option String) :
    (!(py_falsy v || py_strip_falsy v)) = true ↔
      ∃ s, v = some s ∧ s ≠ "" ∧ py_strip s ≠ "" := by
  cases v with
  | none => simp [py_falsy]
  | some s => simp [py_falsy, py_strip_falsy]

/-- `keep_sample` holds exactly when every `'+'`-split field of
`input_field` and `output_field` has a non-empty, non-whitespace-only
label value. -/
theorem keep_sample_iff (input_label_type output_label_type : String)
    (e : DialogueInputExample) :
    keep_sample input_label_type output_label_type e = true ↔
      ∀ field ∈ py_split '+' input_label_type ++ py_split '+' output_label_type,
        ∃ v, e.labels field = some v ∧ v ≠ "" ∧ py_strip v ≠ "" := by
  unfold keep_sample
  rw [List.all_eq_true]
  constructor
  · intro h field hf
    exact (keep_field_iff _).mp (h field hf)
  · intro h field hf
    exact (keep_field_iff _).mpr (h field hf)

/-- C2: an example survives `remove_invalid_samples` (with
`labels.utterance` injected from the utterance) iff every `'+'`-split
field name of `input_field` and `output_field` resolves in its labels
mapping to a value that is present, non-empty, and not whitespace-only. -/
theorem s2s_remove_invalid_samples_iff
    (input_label_type output_label_type : String)
    (features : List DialogueInputExample) (e : DialogueInputExample)
    (he : e ∈ features) :
    inject_utterance e ∈
        remove_invalid_samples input_label_type output_label_type features ↔
      ∀ field ∈ py_split '+' input_label_type ++ py_split '+' output_label_type,
        ∃ v, (inject_utterance e).labels field = some v ∧
          v ≠ "" ∧ py_strip v ≠ "" := by
  unfold remove_invalid_samples
  rw [List.mem_filter, ← keep_sample_iff]
  constructor
  · intro h
    exact h.2
  · intro h
    exact ⟨List.mem_map_of_mem _ he, h⟩

/-- A concrete example whose `response` label is the non-empty string
`"r"` and whose other labels are absent. -/
def example_valid : DialogueInputExample :=
  { utterance := "u"
    example_id := 0
    labels := fun field => if field = "response" then some "r" else none
    possible_service := []
    possible_passage := [] }

/-- C2 witness: with `input_field = "utterance"` and
`output_field = "response"`, the concrete example with utterance `"u"` and
response `"r"` survives filtering. -/
theorem s2s_remove_invalid_samples_iff_witness :
    inject_utterance example_valid ∈
      remove_invalid_samples "utterance" "response" [example_valid] := by
  refine (s2s_remove_invalid_samples_iff "utterance" "response" [example_valid]
    example_valid (by simp)).mpr ?_
  intro field hf
  rw [show py_split '+' "utterance" ++ py_split '+' "response"
      = ["utterance", "response"] from by decide] at hf
  simp only [List.mem_cons, List.not_mem_nil, or_false] at hf
  rcases hf with rfl | rfl
  · exact ⟨"u", rfl, by decide, by decide⟩
  · exact ⟨"r", rfl, by decide, by decide⟩

/-- A concrete example whose `response` label is non-empty but whose
`passage` label is the empty string. -/
def example_mixed : DialogueInputExample :=
  { utterance := "u"
    example_id := 0
    labels := fun field =>
      if field = "response" then some "r"
      else if field = "passage" then some "" else none
    possible_service := []
    possible_passage := [] }

/-- C3 counterexample: with `input_field = "passage"` and
`output_field = "response"`, `example_mixed` has at least one `'+'`-split
field (`response`) holding a non-empty non-whitespace value, yet
`remove_invalid_samples` drops it, so "at least one such field non-empty
implies retained" is false. -/
theorem s2s_any_field_retention_counterexample :
    (∃ field ∈ py_split '+' "passage" ++ py_split '+' "response",
      ∃ v, (inject_utterance example_mixed).labels field = some v ∧
        v ≠ "" ∧ py_strip v ≠ "") ∧
    remove_invalid_samples "passage" "response" [example_mixed] = [] := by
  constructor
  · exact ⟨"response", by decide, "r", rfl, by decide, by decide⟩
  · rfl

/-- C3 amended: an example is dropped by `remove_invalid_samples` as soon
as at least one `'+'`-split field of `input_field` or `output_field` has a
label value that is missing or empty/whitespace-only. -/
theorem s2s_drop_on_any_invalid_field
    (input_label_type output_label_type : String)
    (features : List DialogueInputExample) (e : DialogueInputExample)
    (h : ∃ field ∈ py_split '+' input_label_type ++ py_split '+' output_label_type,
      (inject_utterance e).labels field = none ∨
        ∃ v, (inject_utterance e).labels field = some v ∧ py_strip v = "") :
    inject_utterance e ∉
      remove_invalid_samples input_label_type output_label_type features := by
  intro hmem
  unfold remove_invalid_samples at hmem
  rw [List.mem_filter] at hmem
  have hk := (keep_sample_iff _ _ _).mp hmem.2
  obtain ⟨field, hf, hbad⟩ := h
  obtain ⟨v, hv, hne, hstrip⟩ := hk field hf
  rcases hbad with hnone | ⟨w, hw, hwstrip⟩
  · rw [hnone] at hv
    exact Option.noConfusion hv
  · rw [hw] at hv
    injection hv with hv
    subst hv
    exact hstrip hwstrip

/-- C3 amended witness: `example_mixed` has the empty `passage` field and
is dropped. -/
theorem s2s_drop_on_any_invalid_field_witness :
    inject_utterance example_mixed ∉
      remove_invalid_samples "passage" "response" [example_mixed] :=
  s2s_drop_on_any_invalid_field "passage" "response" [example_mixed]
    example_mixed ⟨"passage", by decide, Or.inr ⟨"", rfl, rfl⟩⟩

/-- C4: for token ids that are non-negative (as tokenizer ids are), a
position of the adjusted target holds −100 iff the tokenized target held
the padding id there before adjustment — including a genuine token whose
id coincides with the pad id — and every other position is unchanged. -/
theorem s2s_target_pad_to_ignore (pad_token_id : Int) (labels : List Int)
    (hl : ∀ t ∈ labels, 0 ≤ t) (i : Nat) :
    ((adjust_target_labels pad_token_id labels)[i]? = some (-100) ↔
      labels[i]? = some pad_token_id) ∧
    (∀ t, labels[i]? = some t → t ≠ pad_token_id →
      (adjust_target_labels pad_token_id labels)[i]? = some t) := by
  unfold adjust_target_labels
  rw [List.getElem?_map]
  cases h : labels[i]? with
  | none => simp
  | some t =>
    have ht : 0 ≤ t := hl t (List.getElem?_mem h)
    refine ⟨?_, ?_⟩
    · by_cases htp : t = pad_token_id
      · simp [htp]
      · simp only [Option.map_some', Option.some.injEq, if_neg htp]
        constructor
        · intro he
          omega
        · intro he
          exact absurd he htp
    · intro t' ht' hne
      injection ht' with ht'
      subst ht'
      simp [if_neg hne]

/-- C4 witness: with pad id 0 and target `[5, 0, 3]`, position 1 (the pad
occurrence) becomes −100 and position 0 keeps the value 5. -/
theorem s2s_target_pad_to_ignore_witness :
    (adjust_target_labels 0 [5, 0, 3])[1]? = some (-100) ∧
    (adjust_target_labels 0 [5, 0, 3])[0]? = some 5 :=
  ⟨(s2s_target_pad_to_ignore 0 [5, 0, 3] (by decide) 1).1.mpr (by decide),
   (s2s_target_pad_to_ignore 0 [5, 0, 3] (by decide) 0).2 5
      (by decide) (by decide)⟩

/-- The list comprehension of `format_prompt` succeeds when every part has
a present label value, producing the `"<field>: <value>"` fragments in
order. -/
theorem prompt_parts_eq (labels : String → Option String)
    (parts : List String) (h : ∀ p ∈ parts, (labels p).isSome) :
    prompt_parts labels parts =
      some (parts.map fun p => p ++ ": " ++ (labels p).getD "") := by
  induction parts with
  | nil => rfl
  | cons p rest ih =>
    have hp : (labels p).isSome := h p (List.mem_cons_self p rest)
    obtain ⟨v, hv⟩ := Option.isSome_iff_exists.mp hp
    rw [List.map_cons]
    unfold prompt_parts
    rw [ih fun q hq => h q (List.mem_cons_of_mem p hq), hv]
    rfl

/-- C5: for an example whose `'+'`-split input fields all have present
label values (after the utterance injection), the prompt is the
`"<field>: <value>"` fragments joined by single spaces, in the declared
field order. -/
theorem s2s_format_prompt_fields (input_label_type : String)
    (ex : DialogueInputExample)
    (h : ∀ part ∈ py_split '+' input_label_type,
      ((inject_utterance ex).labels part).isSome) :
    format_prompt input_label_type ex =
      some (py_join " " ((py_split '+' input_label_type).map
        fun part => part ++ ": " ++ ((inject_utterance ex).labels part).getD "")) := by
  simp only [format_prompt]
  rw [prompt_parts_eq _ _ h]
  rfl

/-- The scenario example of C5: `labels.passage = "P"`, utterance `"U"`. -/
def example_scenario : DialogueInputExample :=
  { utterance := "U"
    example_id := 0
    labels := fun field => if field = "passage" then some "P" else none
    possible_service := []
    possible_passage := [] }

/-- C5 witness: with `input_field = "passage+utterance"`,
`labels.passage = "P"` and utterance `"U"`, the prompt is exactly
`"passage: P utterance: U"`. -/
theorem s2s_format_prompt_fields_witness :
    format_prompt "passage+utterance" example_scenario =
      some "passage: P utterance: U" := by
  rw [s2s_format_prompt_fields "passage+utterance" example_scenario (by decide)]
  decide

/-- C9: with `debug_mode` set, the dataset's features are exactly the
first 16 filtered examples in order (all of them when 16 or fewer pass),
so when 40 examples pass the filter the length is 16 and `get(16)` is
out of range. -/
theorem s2s_debug_mode_truncates (input_label_type output_label_type : String)
    (dialog_examples : List DialogueInputExample) :
    dataset_features input_label_type output_label_type true dialog_examples
      = (remove_invalid_samples input_label_type output_label_type
          dialog_examples).take 16 ∧
    ((remove_invalid_samples input_label_type output_label_type
        dialog_examples).length ≤ 16 →
      dataset_features input_label_type output_label_type true dialog_examples
        = remove_invalid_samples input_label_type output_label_type
            dialog_examples) ∧
    ((remove_invalid_samples input_label_type output_label_type
        dialog_examples).length = 40 →
      dataset_len input_label_type output_label_type true dialog_examples = 16 ∧
      dataset_getitem_feature input_label_type output_label_type true
        dialog_examples 16 = none) := by
  refine ⟨rfl, ?_, ?_⟩
  · intro h
    exact List.take_of_length_le h
  · intro h
    constructor
    · show ((remove_invalid_samples _ _ _).take 16).length = 16
      rw [List.length_take, h]
      decide
    · show ((remove_invalid_samples _ _ _).take 16)[16]? = none
      rw [List.getElem?_eq_none]
      rw [List.length_take, h]
      decide

/-- A list of 40 examples that all pass the filter with
`input_field = output_field = "response"`. -/
def forty_valid_examples : List DialogueInputExample :=
  List.replicate 40 example_valid

/-- C9 witness: 40 examples pass filtering, the debug-mode dataset length
is 16, and index 16 is out of range. -/
theorem s2s_debug_mode_truncates_witness :
    dataset_len "response" "response" true forty_valid_examples = 16 ∧
    dataset_getitem_feature "response" "response" true forty_valid_examples 16
      = none :=
  (s2s_debug_mode_truncates "response" "response" forty_valid_examples).2.2
    (by rfl)

/-- Inversion of a successful `build_example`: the answer extraction and
the well-formed-answer normalization both succeeded, and the example is
the record built from them. -/
theorem build_example_ok_inv (litEval : String → Except String (List String))
    (raw : RawCorpus) (i : Nat) (e : DialogueInputExample)
    (h : build_example litEval raw i = .ok e) :
    ∃ answer wfa,
      first_answer (raw.answers i) = .ok answer ∧
      well_formed_list litEval (raw.wellFormedAnswers i) = .ok wfa ∧
      e = { utterance := raw.query i
            example_id := i
            labels := fun field =>
              if field = "service" then some (raw.query_type i)
              else if field = "response" then some answer
              else if field = "fluent_response" then wfa.head?
              else if field = "passage" then
                (((raw.passages i).filter
                    (fun p => p.is_selected != 0)).map
                  (fun p => p.passage_text)).head?
              else none
            possible_service :=
              py_split ',' "LOCATION,NUMERIC,PERSON,DESCRIPTION,ENTITY"
            possible_passage :=
              (raw.passages i).map (fun p => p.passage_text) } := by
  cases h1 : first_answer (raw.answers i) with
  | error err =>
    unfold build_example at h
    rw [h1] at h
    exact Except.noConfusion h
  | ok answer =>
    cases h2 : well_formed_list litEval (raw.wellFormedAnswers i) with
    | error err =>
      unfold build_example at h
      rw [h1, h2] at h
      exact Except.noConfusion h
    | ok wfa =>
      unfold build_example at h
      rw [h1, h2] at h
      injection h with h
      exact ⟨answer, wfa, rfl, rfl, h.symm⟩

/-- A successfully built example records its corpus index as
`example_id`. -/
theorem build_example_ok_id (litEval : String → Except String (List String))
    (raw : RawCorpus) (i : Nat) (e : DialogueInputExample)
    (h : build_example litEval raw i = .ok e) : e.example_id = i := by
  obtain ⟨answer, wfa, h1, h2, rfl⟩ := build_example_ok_inv litEval raw i e h
  rfl

/-- A successful `build_all` yields one example per index, in order, each
built by `build_example` from the index at the same position. -/
theorem build_all_ok_get (litEval : String → Except String (List String))
    (raw : RawCorpus) (l : List Nat) :
    ∀ es, build_all litEval raw l = .ok es →
      es.length = l.length ∧
      ∀ j (hj : j < l.length) (hj2 : j < es.length),
        build_example litEval raw (l.get ⟨j, hj⟩) = .ok (es.get ⟨j, hj2⟩) := by
  induction l with
  | nil =>
    intro es h
    injection h with h
    subst h
    exact ⟨rfl, fun j hj _ => absurd hj (Nat.not_lt_zero j)⟩
  | cons i is ih =>
    intro es h
    cases hbe : build_example litEval raw i with
    | error err =>
      unfold build_all at h
      rw [hbe] at h
      exact Except.noConfusion h
    | ok e =>
      cases hba : build_all litEval raw is with
      | error err =>
        unfold build_all at h
        rw [hbe, hba] at h
        exact Except.noConfusion h
      | ok es2 =>
        unfold build_all at h
        rw [hbe, hba] at h
        injection h with h
        subst h
        obtain ⟨hlen, hget⟩ := ih es2 hba
        refine ⟨by rw [List.length_cons, List.length_cons, hlen], ?_⟩
        intro j hj hj2
        cases j with
        | zero => exact hbe
        | succ j2 =>
          exact hget j2 (Nat.lt_of_succ_lt_succ hj) (Nat.lt_of_succ_lt_succ hj2)

/-- Every example of a successful `build_all` was built by `build_example`
from one of the requested indices. -/
theorem build_all_ok_mem (litEval : String → Except String (List String))
    (raw : RawCorpus) (l : List Nat) :
    ∀ es, build_all litEval raw l = .ok es →
      ∀ e ∈ es, ∃ i ∈ l, build_example litEval raw i = .ok e := by
  induction l with
  | nil =>
    intro es h e he
    injection h with h
    subst h
    exact absurd he (List.not_mem_nil e)
  | cons i is ih =>
    intro es h e he
    cases hbe : build_example litEval raw i with
    | error err =>
      unfold build_all at h
      rw [hbe] at h
      exact Except.noConfusion h
    | ok e2 =>
      cases hba : build_all litEval raw is with
      | error err =>
        unfold build_all at h
        rw [hbe, hba] at h
        exact Except.noConfusion h
      | ok es2 =>
        unfold build_all at h
        rw [hbe, hba] at h
        injection h with h
        subst h
        rcases List.mem_cons.mp he with rfl | hmem
        · exact ⟨i, List.mem_cons_self i is, hbe⟩
        · obtain ⟨i2, hi2, hbe2⟩ := ih es2 hba e hmem
          exact ⟨i2, List.mem_cons_of_mem i hi2, hbe2⟩

/-- C6: `get_dialog_examples "test"` reads the `dev` source file while
`"train"` and `"dev"` both read the `train` file, and a successful test
split yields exactly `N` examples, one per index of `[0, N)` with no
modulo-based exclusion, where `N` is the size of the dev file's `answers`
mapping. -/
theorem marco_test_reads_dev_file
    (litEval : String → Except String (List String))
    (files : String → RawCorpus) :
    get_dialog_examples litEval files "test"
      = build_all litEval (files "dev")
          (List.range (files "dev").answersLen) ∧
    get_dialog_examples litEval files "train"
      = build_all litEval (files "train")
          (split_idxs "train" (files "train").answersLen) ∧
    get_dialog_examples litEval files "dev"
      = build_all litEval (files "train")
          (split_idxs "dev" (files "train").answersLen) ∧
    ∀ es, get_dialog_examples litEval files "test" = .ok es →
      es.length = (files "dev").answersLen ∧
      ∀ j (hj : j < es.length), (es.get ⟨j, hj⟩).example_id = j := by
  have heq : get_dialog_examples litEval files "test"
      = build_all litEval (files "dev") (List.range (files "dev").answersLen) := rfl
  refine ⟨heq, rfl, rfl, ?_⟩
  intro es h
  rw [heq] at h
  obtain ⟨hlen, hget⟩ := build_all_ok_get litEval (files "dev") _ es h
  rw [List.length_range] at hlen
  refine ⟨hlen, ?_⟩
  intro j hj
  have hj2 : j < (List.range (files "dev").answersLen).length := by
    rw [List.length_range]
    exact hlen ▸ hj
  have hid := build_example_ok_id litEval (files "dev") _ _ (hget j hj2 hj)
  rw [hid]
  simp

/-- Stub for `ast.literal_eval` that always parses to the empty list. -/
def lit_eval_stub : String → Except String (List String) := fun _ => .ok []

/-- A two-record corpus with scalar answers and empty passage lists. -/
def corpus_a : RawCorpus :=
  { answersLen := 2
    query := fun _ => "q"
    answers := fun _ => .scalar "a"
    wellFormedAnswers := fun _ => .list []
    query_type := fun _ => "LOCATION"
    passages := fun _ => [] }

/-- A file system whose every file is `corpus_a`. -/
def files_a : String → RawCorpus := fun _ => corpus_a

/-- The examples the test split produces from `corpus_a`. -/
def examples_test_a : List DialogueInputExample :=
  match build_all lit_eval_stub corpus_a [0, 1] with
  | .ok es => es
  | .error _ => []

/-- C6 witness: on the concrete two-record corpus, the test split yields
2 examples and the example at position 1 has `example_id` 1. -/
theorem marco_test_reads_dev_file_witness :
    examples_test_a.length = 2 ∧
    (examples_test_a.get ⟨1, by decide⟩).example_id = 1 := by
  obtain ⟨h1, h2⟩ :=
    (marco_test_reads_dev_file lit_eval_stub files_a).2.2.2 examples_test_a rfl
  exact ⟨h1, h2 1 (by decide)⟩

/-- C7: in a successfully built example, `possible_labels.passage` lists
all candidate passage texts; `labels.passage` is absent when no candidate
has a non-zero `is_selected` flag, and otherwise is the text of the first
(in particular, of the unique) flagged candidate. -/
theorem marco_passage_selection
    (litEval : String → Except String (List String)) (raw : RawCorpus)
    (i : Nat) (e : DialogueInputExample)
    (h : build_example litEval raw i = .ok e) :
    e.possible_passage = (raw.passages i).map (fun p => p.passage_text) ∧
    ((raw.passages i).filter (fun p => p.is_selected != 0) = [] →
      e.labels "passage" = none) ∧
    (∀ cp rest,
      (raw.passages i).filter (fun p => p.is_selected != 0) = cp :: rest →
      e.labels "passage" = some cp.passage_text) := by
  obtain ⟨answer, wfa, h1, h2, rfl⟩ := build_example_ok_inv litEval raw i e h
  refine ⟨rfl, ?_, ?_⟩
  · intro hf
    simp [hf]
  · intro cp rest hf
    simp [hf]

/-- A candidate passage flagged as selected. -/
def passage_gold : Passage := { passage_text := "gold", is_selected := 1 }

/-- A candidate passage not flagged. -/
def passage_other : Passage := { passage_text := "other", is_selected := 0 }

/-- A one-record corpus whose record has one unflagged and one flagged
candidate passage. -/
def corpus_b : RawCorpus :=
  { answersLen := 1
    query := fun _ => "q"
    answers := fun _ => .scalar "a"
    wellFormedAnswers := fun _ => .list []
    query_type := fun _ => "DESCRIPTION"
    passages := fun _ => [passage_other, passage_gold] }

/-- The example built from record 0 of `corpus_b`. -/
def example_b : DialogueInputExample :=
  match build_example lit_eval_stub corpus_b 0 with
  | .ok e => e
  | .error _ => example_valid

/-- C7 witness: on `corpus_b`, the gold passage is the flagged candidate's
text and `possible_labels.passage` lists both candidate texts. -/
theorem marco_passage_selection_witness :
    example_b.labels "passage" = some "gold" ∧
    example_b.possible_passage = ["other", "gold"] := by
  obtain ⟨hposs, hnone, hsel⟩ :=
    marco_passage_selection lit_eval_stub corpus_b 0 example_b rfl
  exact ⟨hsel passage_gold [] rfl, hposs.trans rfl⟩

/-- C8: in a successfully built example, `labels.response` is the first
element of a list-valued raw answer and the raw value itself of a scalar
answer; `labels.fluent_response` is the head of a list-valued raw
well-formed answer (absent when the list is empty), the head of the
parsed collection of a scalar well-formed answer, and a parse failure of
the scalar well-formed answer propagates as that error. -/
theorem marco_response_normalization
    (litEval : String → Except String (List String)) (raw : RawCorpus)
    (i : Nat) :
    (∀ e, build_example litEval raw i = .ok e →
      (∀ a rest, raw.answers i = .list (a :: rest) →
        e.labels "response" = some a) ∧
      (∀ s, raw.answers i = .scalar s → e.labels "response" = some s) ∧
      (∀ l, raw.wellFormedAnswers i = .list l →
        e.labels "fluent_response" = l.head?) ∧
      (∀ s l, raw.wellFormedAnswers i = .scalar s → litEval s = .ok l →
        e.labels "fluent_response" = l.head?)) ∧
    (∀ a s err, first_answer (raw.answers i) = .ok a →
      raw.wellFormedAnswers i = .scalar s → litEval s = .error err →
      build_example litEval raw i = .error err) := by
  constructor
  · intro e h
    obtain ⟨answer, wfa, h1, h2, rfl⟩ := build_example_ok_inv litEval raw i e h
    refine ⟨?_, ?_, ?_, ?_⟩
    · intro a rest ha
      rw [ha] at h1
      injection h1 with h1
      subst h1
      simp
    · intro s hs
      rw [hs] at h1
      injection h1 with h1
      subst h1
      simp
    · intro l hl
      rw [hl] at h2
      injection h2 with h2
      subst h2
      simp
    · intro s l hws hle
      rw [hws] at h2
      simp only [well_formed_list] at h2
      rw [hle] at h2
      injection h2 with h2
      subst h2
      simp
  · intro a s err h1 hws hle
    unfold build_example
    rw [h1]
    have h2 : well_formed_list litEval (raw.wellFormedAnswers i)
        = .error err := by
      rw [hws]
      simp only [well_formed_list]
      exact hle
    rw [h2]

/-- A one-record corpus whose answers entry is a two-element list and
whose well-formed-answers entry is a scalar to be parsed. -/
def corpus_c : RawCorpus :=
  { answersLen := 1
    query := fun _ => "q"
    answers := fun _ => .list ["a1", "a2"]
    wellFormedAnswers := fun _ => .scalar "[.w.]"
    query_type := fun _ => "PERSON"
    passages := fun _ => [] }

/-- A `literal_eval` stub parsing every string to the collection `["w"]`. -/
def lit_eval_w : String → Except String (List String) := fun _ => .ok ["w"]

/-- A `literal_eval` stub that always fails to parse. -/
def lit_eval_fail : String → Except String (List String) :=
  fun _ => .error "ValueError: malformed node"

/-- The example built from record 0 of `corpus_c` under `lit_eval_w`. -/
def example_c : DialogueInputExample :=
  match build_example lit_eval_w corpus_c 0 with
  | .ok e => e
  | .error _ => example_valid

/-- C8 witness: on `corpus_c`, the response is the first raw answer, the
fluent response is the head of the parsed collection, and under the
failing parser the build propagates the parse error. -/
theorem marco_response_normalization_witness :
    example_c.labels "response" = some "a1" ∧
    example_c.labels "fluent_response" = some "w" ∧
    build_example lit_eval_fail corpus_c 0
      = .error "ValueError: malformed node" := by
  refine ⟨?_, ?_, ?_⟩
  · exact ((marco_response_normalization lit_eval_w corpus_c 0).1
      example_c rfl).1 "a1" ["a2"] rfl
  · exact ((marco_response_normalization lit_eval_w corpus_c 0).1
      example_c rfl).2.2.2 "[.w.]" ["w"] rfl rfl
  · exact (marco_response_normalization lit_eval_fail corpus_c 0).2
      "a1" "[.w.]" "ValueError: malformed node" rfl rfl rfl

/-- C10: every example produced by a successful `get_dialog_examples`,
for any split, has `labels.passage`, when present, an element of
`possible_labels.passage`, and has `possible_labels.service` exactly the
five-element category list. -/
theorem marco_example_invariant
    (litEval : String → Except String (List String))
    (files : String → RawCorpus) (dataset_split : String)
    (es : List DialogueInputExample)
    (h : get_dialog_examples litEval files dataset_split = .ok es) :
    ∀ e ∈ es,
      (∀ p, e.labels "passage" = some p → p ∈ e.possible_passage) ∧
      e.possible_service
        = ["LOCATION", "NUMERIC", "PERSON", "DESCRIPTION", "ENTITY"] := by
  intro e he
  unfold get_dialog_examples at h
  cases hsp : dataset_split_print dataset_split with
  | error err =>
    rw [hsp] at h
    exact Except.noConfusion h
  | ok srcName =>
    rw [hsp] at h
    obtain ⟨i, hi, hbe⟩ :=
      build_all_ok_mem litEval (files srcName) _ es h e he
    obtain ⟨answer, wfa, h1, h2, rfl⟩ :=
      build_example_ok_inv litEval (files srcName) i e hbe
    constructor
    · intro p hp
      have hp2 : ((((files srcName).passages i).filter
            (fun q : Passage => q.is_selected != 0)).map
          (fun q : Passage => q.passage_text)).head? = some p := hp
      show p ∈ ((files srcName).passages i).map
        (fun q : Passage => q.passage_text)
      cases hl : ((files srcName).passages i).filter
          (fun q : Passage => q.is_selected != 0) with
      | nil =>
        rw [hl] at hp2
        exact Option.noConfusion hp2
      | cons cp rest =>
        rw [hl] at hp2
        injection hp2 with hp2
        subst hp2
        refine List.mem_map.mpr ⟨cp, ?_, rfl⟩
        have hcp : cp ∈ ((files srcName).passages i).filter
            (fun q : Passage => q.is_selected != 0) := by
          rw [hl]
          exact List.mem_cons_self cp rest
        exact (List.mem_filter.mp hcp).1
    · show py_split ',' "LOCATION,NUMERIC,PERSON,DESCRIPTION,ENTITY"
          = ["LOCATION", "NUMERIC", "PERSON", "DESCRIPTION", "ENTITY"]
      decide

/-- A file system whose every file is `corpus_b`. -/
def files_b : String → RawCorpus := fun _ => corpus_b

/-- C10 witness: the example the test split builds from `corpus_b` has its
gold passage among the candidate texts and the fixed five-element service
category list. -/
theorem marco_example_invariant_witness :
    (∀ p, example_b.labels "passage" = some p → p ∈ example_b.possible_passage) ∧
    example_b.possible_service
      = ["LOCATION", "NUMERIC", "PERSON", "DESCRIPTION", "ENTITY"] :=
  marco_example_invariant lit_eval_stub files_b "test" [example_b] rfl
    example_b (List.mem_singleton.mpr rfl)
